import Mathlib

/-!
Verification of the debux session orchestration core against its
natural-language specification.  The definitions below are shallow
embeddings of the Go source under internal/runtime, internal/store and
the companion files; each definition's doc comment names the function it
embeds.  Machine strings are Lean Strings, slices are Lists, fallible Go
functions return Except.
-/

namespace Debux

/-! ## Target resolver (internal/runtime/runtime.go) -/

/-- Go struct Target (runtime.go).  Runtime is "docker", "containerd" or
"kubernetes"; Namespace and Container are meaningful only for kubernetes
and default to the Go zero value "". -/
structure Target where
  Runtime : String
  Name : String
  Namespace : String
  Container : String
deriving DecidableEq, Repr

/-- Splits a list of characters at the first occurrence of the separator
"://", returning the part before and the part after; none when the
separator does not occur.  This embeds strings.Index(raw, "://") plus the
two slicings raw[:idx] and raw[idx+3:]. -/
def splitSchemaChars : List Char → Option (List Char × List Char)
  | ':' :: '/' :: '/' :: rest => some ([], rest)
  | c :: rest =>
    match splitSchemaChars rest with
    | some (pre, post) => some (c :: pre, post)
    | none => none
  | [] => none

/-- String-level wrapper of splitSchemaChars. -/
def splitSchema (s : String) : Option (String × String) :=
  match splitSchemaChars s.toList with
  | some (pre, post) => some (String.mk pre, String.mk post)
  | none => none

/-- Embeds Go strings.Split(s, sep) for a one-character separator: the
result always has at least one element, and an empty input yields [""]. -/
def splitOnCharList (sep : Char) : List Char → List (List Char)
  | [] => [[]]
  | c :: rest =>
    let r := splitOnCharList sep rest
    if c = sep then [] :: r
    else (c :: r.headD []) :: r.tail

/-- String-level wrapper of splitOnCharList. -/
def splitOnChar (sep : Char) (s : String) : List String :=
  (splitOnCharList sep s.toList).map String.mk

/-- The distinct error values ParseTarget produces, one per fmt.Errorf
site in runtime.go. -/
inductive GoParseErr
  | emptyTarget
  | unknownSchema (schema : String)
  | invalidK8sFormat (rest : String)
deriving DecidableEq, Repr

/-- Embeds parseK8sTarget (runtime.go lines 145-173): empty rest is the
wildcard target; otherwise the rest is split on "/" into 1, 2 or 3 parts;
any other number of parts is rejected (the Go switch's default). -/
def parseK8sTarget (rest : String) : Except GoParseErr Target :=
  if rest = "" then
    .ok { Runtime := "kubernetes", Name := "", Namespace := "default", Container := "" }
  else
    match splitOnChar '/' rest with
    | [p] => .ok { Runtime := "kubernetes", Name := p, Namespace := "default", Container := "" }
    | [ns, p] => .ok { Runtime := "kubernetes", Name := p, Namespace := ns, Container := "" }
    | [ns, p, c] => .ok { Runtime := "kubernetes", Name := p, Namespace := ns, Container := c }
    | _ => .error (.invalidK8sFormat rest)

/-- Embeds ParseTarget (runtime.go lines 116-143): empty input is
rejected; with a "://" schema the schema selects the runtime (docker,
containerd, nerdctl mapping to containerd, k8s) and anything else is an
unknown schema; without a schema the whole address is a docker name. -/
def ParseTarget (raw : String) : Except GoParseErr Target :=
  if raw = "" then .error .emptyTarget
  else
    match splitSchema raw with
    | some (schema, rest) =>
      if schema = "docker" then
        .ok { Runtime := "docker", Name := rest, Namespace := "", Container := "" }
      else if schema = "containerd" ∨ schema = "nerdctl" then
        .ok { Runtime := "containerd", Name := rest, Namespace := "", Container := "" }
      else if schema = "k8s" then
        parseK8sTarget rest
      else
        .error (.unknownSchema schema)
    | none => .ok { Runtime := "docker", Name := raw, Namespace := "", Container := "" }

/-! ### The address grammar stated by the specification (section 4.1),
written from the spec's words, to be compared with ParseTarget. -/

/-- The spec's error taxonomy for address resolution. -/
inductive SpecAddrErr
  | invalidAddress
  | unknownRuntime
deriving DecidableEq, Repr

/-- Modelled on the spec's words for the cluster schema: split the
remainder on "/"; zero segments (an empty remainder) is the wildcard
target, one segment a pod name with the default namespace, two
namespace/name, three namespace/name/container, more than three an
invalid address. -/
def specClusterGrammar (rest : String) : Except SpecAddrErr Target :=
  let segments := if rest = "" then [] else splitOnChar '/' rest
  match segments with
  | [] => .ok { Runtime := "kubernetes", Name := "", Namespace := "default", Container := "" }
  | [p] => .ok { Runtime := "kubernetes", Name := p, Namespace := "default", Container := "" }
  | [ns, p] => .ok { Runtime := "kubernetes", Name := p, Namespace := ns, Container := "" }
  | [ns, p, c] => .ok { Runtime := "kubernetes", Name := p, Namespace := ns, Container := c }
  | _ => .error .invalidAddress

/-- Modelled on the spec's words for the whole grammar: the empty address
is invalid; a prefix before "://" selects the runtime kind (nerdctl being
the containerd engine's CLI selects containerd), any unrecognized prefix
is an unknown runtime; absence of a prefix defaults to a docker target
whose name is the whole address. -/
def specAddressGrammar (raw : String) : Except SpecAddrErr Target :=
  if raw = "" then .error .invalidAddress
  else
    match splitSchema raw with
    | some (schema, rest) =>
      if schema = "docker" then
        .ok { Runtime := "docker", Name := rest, Namespace := "", Container := "" }
      else if schema = "containerd" ∨ schema = "nerdctl" then
        .ok { Runtime := "containerd", Name := rest, Namespace := "", Container := "" }
      else if schema = "k8s" then
        specClusterGrammar rest
      else
        .error .unknownRuntime
    | none => .ok { Runtime := "docker", Name := raw, Namespace := "", Container := "" }

/-- The correspondence between a source-level parse outcome and a
spec-level one: equal targets on success, and on failure the source's
empty-target and invalid-k8s-format errors are the spec's InvalidAddress
while the source's unknown-schema error is the spec's UnknownRuntime. -/
def parseResultMatches : Except GoParseErr Target → Except SpecAddrErr Target → Prop
  | .ok t1, .ok t2 => t1 = t2
  | .error .emptyTarget, .error .invalidAddress => True
  | .error (.invalidK8sFormat _), .error .invalidAddress => True
  | .error (.unknownSchema _), .error .unknownRuntime => True
  | _, _ => False

/-! ## Security profile resolver (internal/runtime/kubernetes.go) -/

/-- Security profile name constants (runtime.go lines 46-52). -/
def ProfileGeneral : String := "general"

/-- See ProfileGeneral. -/
def ProfileBaseline : String := "baseline"

/-- See ProfileGeneral. -/
def ProfileRestricted : String := "restricted"

/-- See ProfileGeneral. -/
def ProfileNetadmin : String := "netadmin"

/-- See ProfileGeneral. -/
def ProfileSysadmin : String := "sysadmin"

/-- ValidProfiles (runtime.go lines 55-61). -/
def ValidProfiles : List String :=
  [ProfileGeneral, ProfileBaseline, ProfileRestricted, ProfileNetadmin, ProfileSysadmin]

/-- corev1.SeccompProfileType, restricted to the value the code uses. -/
inductive SeccompProfileType
  | RuntimeDefault
deriving DecidableEq, Repr

/-- corev1.SeccompProfile. -/
structure SeccompProfileK8s where
  type : SeccompProfileType
deriving DecidableEq, Repr

/-- corev1.Capabilities: capability names to add and to drop. -/
structure CapabilitiesK8s where
  add : List String := []
  drop : List String := []
deriving DecidableEq, Repr

/-- corev1.SecurityContext, the fields SecurityContextForProfile sets.
A Go nil pointer field is Lean's none. -/
structure SecurityContextK8s where
  runAsNonRoot : Option Bool := none
  runAsUser : Option Int := none
  allowPrivilegeEscalation : Option Bool := none
  seccompProfile : Option SeccompProfileK8s := none
  capabilities : Option CapabilitiesK8s := none
  privileged : Option Bool := none
deriving DecidableEq, Repr

/-- Embeds SecurityContextForProfile (kubernetes.go lines 25-63).  A nil
SecurityContext result is .ok none; an unknown profile is an error. -/
def SecurityContextForProfile (profile : String) :
    Except String (Option SecurityContextK8s) :=
  if profile = ProfileGeneral ∨ profile = "" then
    .ok (some { runAsNonRoot := some false })
  else if profile = ProfileBaseline then
    .ok none
  else if profile = ProfileRestricted then
    .ok (some { runAsNonRoot := some true,
                runAsUser := some 65534,
                allowPrivilegeEscalation := some false,
                seccompProfile := some { type := .RuntimeDefault },
                capabilities := some { drop := ["ALL"] } })
  else if profile = ProfileNetadmin then
    .ok (some { capabilities := some { add := ["NET_ADMIN", "NET_RAW"] } })
  else if profile = ProfileSysadmin then
    .ok (some { privileged := some true })
  else
    .error ("unknown profile: " ++ profile)

/-! ## Store manager (internal/store, src/unnamed/part_006) -/

/-- Volume name constants (part_006 lines 12-15). -/
def NixStoreVolume : String := "debux-nix-store"

/-- See NixStoreVolume. -/
def NixVarVolume : String := "debux-nix-var"

/-- Embeds Volumes() (part_006 lines 18-20). -/
def StoreVolumes : List String := [NixStoreVolume, NixVarVolume]

/-- A Docker volume as the model's backend state records it: its name and
its labels. -/
structure VolumeRec where
  name : String
  labels : List (String × String)
deriving DecidableEq, Repr

/-- The backend's volume state: the list of existing volumes. -/
abbrev VolState := List VolumeRec

/-- Embeds cli.VolumeInspect: the first volume with the given name, none
when absent (the Go call's error case). -/
def volumeInspect (st : VolState) (name : String) : Option VolumeRec :=
  st.find? (fun v => v.name == name)

/-- One VolumeCreate call as issued by ensureVolume: the requested name
and labels. -/
structure VolumeCreateCall where
  name : String
  labels : List (String × String)
deriving DecidableEq, Repr

/-- Embeds ensureVolume (part_006 lines 32-46): inspect, and when the
volume is absent create it carrying the ownership label.  Returns the new
state and the create calls issued. -/
def ensureVolume (st : VolState) (name : String) : VolState × List VolumeCreateCall :=
  match volumeInspect st name with
  | some _ => (st, [])
  | none =>
    (st ++ [{ name := name, labels := [("managed-by", "debux")] }],
     [{ name := name, labels := [("managed-by", "debux")] }])

/-- The loop body of EnsureVolumes over the fixed volume-name list. -/
def ensureVolumesAux (st : VolState) : List String → VolState × List VolumeCreateCall
  | [] => (st, [])
  | n :: rest =>
    let r := ensureVolume st n
    let r2 := ensureVolumesAux r.1 rest
    (r2.1, r.2 ++ r2.2)

/-- Embeds EnsureVolumes (part_006 lines 23-30). -/
def EnsureVolumes (st : VolState) : VolState × List VolumeCreateCall :=
  ensureVolumesAux st StoreVolumes

/-! ## Readiness watch (internal/runtime/kubernetes.go) -/

/-- corev1.ContainerState restricted to which of the three pointers is
set: Running, Terminated (with reason and exit code), Waiting (with
reason and message), or none of them. -/
inductive ContainerState
  | running
  | terminated (reason : String) (exitCode : Int)
  | waiting (reason : String) (message : String)
  | stateUnknown
deriving DecidableEq, Repr

/-- corev1.ContainerStatus: the container name and its state. -/
structure ContainerStatus where
  name : String
  state : ContainerState
deriving DecidableEq, Repr

/-- watch.EventType. -/
inductive WatchEventType
  | Added
  | Modified
  | Deleted
  | Bookmark
  | ErrorEvent
deriving DecidableEq, Repr

/-- One event from the pod watch channel: the event type and, when the
event object is a Pod, its EphemeralContainerStatuses (none models the
failed type assertion event.Object.(*corev1.Pod)). -/
structure WatchEvent where
  type : WatchEventType
  pod : Option (List ContainerStatus)
deriving DecidableEq, Repr

/-- The enumerated fatal waiting reasons of waitForEphemeralContainer
(kubernetes.go lines 467-469). -/
def fatalWaitingReasons : List String :=
  ["ImagePullBackOff", "ErrImagePull", "InvalidImageName",
   "CrashLoopBackOff", "RunContainerError", "CreateContainerError",
   "CreateContainerConfigError"]

/-- A formatted k8s Event for the diagnosis: its type, reason, message. -/
structure EventRecord where
  type : String
  reason : String
  message : String
deriving DecidableEq, Repr

/-- What the API answers the two diagnostic reads of
describeContainerFailure: the target pod's ephemeral container statuses
(or the Get error message), and the pod's events (the events List call;
an error there behaves like an empty list, which the code also skips). -/
structure DiagSource where
  podStatuses : Except String (List ContainerStatus)
  events : List EventRecord
deriving Repr

/-- Embeds describeContainerFailure (kubernetes.go lines 496-545): the
best-effort diagnostic bundle gathered on timeout, holding the latest
observed container status and up to the last five related events. -/
def describeContainerFailure (cn : String) (src : DiagSource) : String :=
  let statusDetails : List String :=
    match src.podStatuses with
    | .error e => ["  (could not fetch pod status: " ++ e ++ ")"]
    | .ok sts =>
      match sts.find? (fun cs => cs.name == cn) with
      | some cs =>
        match cs.state with
        | .waiting r m => ["  Container is waiting: " ++ r ++ ": " ++ m]
        | .terminated r e =>
          ["  Container terminated: " ++ r ++ " (exit code " ++ toString e ++ ")"]
        | _ => ["  Container state is unknown (no waiting/running/terminated status)"]
      | none =>
        ["  Ephemeral container not found in pod status (it may not have been created)",
         "  Possible causes: RBAC denied ephemeral container creation, or the API server rejected it silently"]
  let eventDetails : List String :=
    if src.events.length > 0 then
      let evs := if src.events.length > 5 then
          src.events.drop (src.events.length - 5)
        else src.events
      "  Recent pod events:" ::
        evs.map (fun ev => "    " ++ ev.type ++ ": " ++ ev.reason ++ ": " ++ ev.message)
    else []
  let details := statusDetails ++ eventDetails
  if details = [] then "  No additional diagnostic information available"
  else String.intercalate "\n" details

/-- The outcome of waitForEphemeralContainer: success, the terminated
failure carrying reason and exit code, the fatal-waiting failure carrying
reason and message, or the timeout carrying the diagnostic bundle. -/
inductive WatchResult
  | ready
  | terminated (reason : String) (exitCode : Int)
  | failedToStart (reason : String) (message : String)
  | timeoutExpired (diagnosis : String)
deriving DecidableEq, Repr

/-- The inner loop of waitForEphemeralContainer over one event's
EphemeralContainerStatuses.  Carries lastReason and the progress lines
printed so far; returns the final result when one status decides the
watch, otherwise the updated lastReason and prints. -/
def processStatuses (cn : String) (ls : String) (pr : List String) :
    List ContainerStatus → Option WatchResult × String × List String
  | [] => (none, ls, pr)
  | cs :: rest =>
    if cs.name == cn then
      match cs.state with
      | .running => (some .ready, ls, pr)
      | .terminated r e => (some (.terminated r e), ls, pr)
      | .waiting r m =>
        if r ∈ fatalWaitingReasons then (some (.failedToStart r m), ls, pr)
        else if r ≠ "" ∧ r ≠ ls then processStatuses cn r (pr ++ [r]) rest
        else processStatuses cn ls pr rest
      | .stateUnknown => processStatuses cn ls pr rest
    else processStatuses cn ls pr rest

/-- The select loop of waitForEphemeralContainer (kubernetes.go lines
444-491) over the events the watch delivers before the timeout fires;
reaching the end of the list is the timeout, which returns the error
carrying the describeContainerFailure bundle.  Only Modified events whose
object is a Pod are inspected. -/
def runWatch (cn : String) (diag : DiagSource) :
    List WatchEvent → String → List String → WatchResult × List String
  | [], _, pr => (.timeoutExpired (describeContainerFailure cn diag), pr)
  | ev :: rest, ls, pr =>
    if ev.type = .Modified then
      match ev.pod with
      | none => runWatch cn diag rest ls pr
      | some sts =>
        match processStatuses cn ls pr sts with
        | (some res, _, pr2) => (res, pr2)
        | (none, ls2, pr2) => runWatch cn diag rest ls2 pr2
    else runWatch cn diag rest ls pr

/-- Embeds waitForEphemeralContainer: run the watch from the initial
lastReason "" with no progress printed yet.  Returns the result and the
progress lines printed. -/
def waitForEphemeralContainer (cn : String) (diag : DiagSource)
    (events : List WatchEvent) : WatchResult × List String :=
  runWatch cn diag events "" []

/-- The overall timeout of waitForEphemeralContainer (kubernetes.go line
445): 2 * time.Minute, in seconds. -/
def ephemeralContainerWaitTimeoutSeconds : Nat := 2 * 60

/-- The overall timeout of waitForPodRunning (kubernetes.go line 556):
2 * time.Minute, in seconds. -/
def podRunningWaitTimeoutSeconds : Nat := 2 * 60

/-- corev1.PodPhase. -/
inductive PodPhase
  | Pending
  | Running
  | Succeeded
  | Failed
  | PhaseUnknown
deriving DecidableEq, Repr

/-- One event from the standalone-pod watch: the event type and, when the
object is a Pod, its status phase. -/
structure PodWatchEvent where
  type : WatchEventType
  phase : Option PodPhase
deriving DecidableEq, Repr

/-- The outcome of waitForPodRunning.  Its timeout constructor carries no
payload: the source surfaces a bare message with no diagnostic bundle. -/
inductive PodWaitResult
  | ready
  | timeoutExpired
deriving DecidableEq, Repr

/-- Embeds waitForPodRunning (kubernetes.go lines 547-575): watch until a
Modified or Added pod event reports phase Running; the end of the event
list is the timeout. -/
def waitForPodRunning : List PodWatchEvent → PodWaitResult
  | [] => .timeoutExpired
  | ev :: rest =>
    if ev.type = .Modified ∨ ev.type = .Added then
      match ev.phase with
      | none => waitForPodRunning rest
      | some ph => if ph = .Running then .ready else waitForPodRunning rest
    else waitForPodRunning rest

/-- The diagnosis a watch timeout surfaces, if any. -/
def watchTimeoutDiagnosis : WatchResult → Option String
  | .timeoutExpired d => some d
  | _ => none

/-- The diagnosis a pod-running wait timeout surfaces: none, in every
case — the source formats the bare message
"timeout waiting for pod %q to start". -/
def podWaitTimeoutDiagnosis : PodWaitResult → Option String
  | _ => none

/-- The exact timeout message of waitForPodRunning (kubernetes.go line
570). -/
def podRunningTimeoutMessage (podName : String) : String :=
  "timeout waiting for pod \"" ++ podName ++ "\" to start"

/-- A status that does not decide the watch when scanned: either it is
for another container, or it is a waiting state with a non-fatal reason,
or it carries no state. -/
def NonDecidingStatus (cn : String) (cs : ContainerStatus) : Prop :=
  cs.name = cn →
    match cs.state with
    | .running => False
    | .terminated _ _ => False
    | .waiting r _ => r ∉ fatalWaitingReasons
    | .stateUnknown => True

/-- An event that does not decide the watch: not a Modified pod event, or
one whose statuses are all non-deciding. -/
def NonDecidingEvent (cn : String) (ev : WatchEvent) : Prop :=
  ev.type = .Modified →
    match ev.pod with
    | none => True
    | some sts => ∀ cs ∈ sts, NonDecidingStatus cn cs

/-- No two adjacent entries of the list are equal: the progress-print
discipline the watch actually guarantees. -/
def noAdjacentDup : List String → Prop
  | [] => True
  | [_] => True
  | a :: b :: rest => a ≠ b ∧ noAdjacentDup (b :: rest)

/-- The last entry of a list of strings, or the default when empty. -/
def lastOrDefault (d : String) : List String → String
  | [] => d
  | [a] => a
  | _ :: b :: rest => lastOrDefault d (b :: rest)

/-- A concrete diagnostic source used by concrete evaluations. -/
def diagExample : DiagSource := { podStatuses := .ok [], events := [] }

/-- A concrete event sequence whose waiting reasons alternate A, B, A
with both reasons outside the fatal set. -/
def altReasonEvents : List WatchEvent :=
  [{ type := .Modified, pod := some [{ name := "debux-1", state := .waiting "PodInitializing" "" }] },
   { type := .Modified, pod := some [{ name := "debux-1", state := .waiting "ContainerCreating" "" }] },
   { type := .Modified, pod := some [{ name := "debux-1", state := .waiting "PodInitializing" "" }] }]

/-! ## Session lifecycle: Kubernetes exec (internal/runtime/kubernetes.go) -/

/-- Go struct DebugOpts (runtime.go lines 72-82). -/
structure DebugOpts where
  Image : String
  Privileged : Bool
  User : String
  AutoRemove : Bool
  Kubeconfig : String
  ShareVolumes : Bool
  PullPolicy : String
  Fresh : Bool
  Profile : String
deriving Repr

/-- corev1.VolumeMount, the fields the code reads. -/
structure VolumeMountK8s where
  name : String
  mountPath : String
  subPath : String
  subPathExpr : String
deriving DecidableEq, Repr

/-- One entry of pod.Spec.Containers: its name and volume mounts. -/
structure PodContainer where
  name : String
  volumeMounts : List VolumeMountK8s
deriving DecidableEq, Repr

/-- corev1.EphemeralContainer, the fields KubernetesExec sets. -/
structure EphemeralContainer where
  name : String
  image : String
  imagePullPolicy : String
  command : List String
  stdin : Bool
  tty : Bool
  env : List (String × String)
  targetContainerName : String
  volumeMounts : List VolumeMountK8s
  securityContext : Option SecurityContextK8s
deriving DecidableEq, Repr

/-- The pod object as KubernetesExec reads and writes it. -/
structure Pod where
  name : String
  containers : List PodContainer
  ephemeralContainers : List EphemeralContainer
  ephemeralContainerStatuses : List ContainerStatus
  resourceVersion : String
deriving DecidableEq, Repr

/-- Whether a ContainerState is the running state (State.Running != nil). -/
def isRunningState : ContainerState → Bool
  | .running => true
  | _ => false

/-- Character-level prefix test: embeds Go strings.HasPrefix. -/
def hasPrefixChars : List Char → List Char → Bool
  | [], _ => true
  | _ :: _, [] => false
  | p :: ps, c :: cs => p == c && hasPrefixChars ps cs

/-- Whether pre is a prefix of s (strings.HasPrefix(s, pre)). -/
def hasPrefixStr (s pre : String) : Bool :=
  hasPrefixChars pre.toList s.toList

/-- Embeds findRunningDebuxContainer (kubernetes.go lines 255-262): the
first ephemeral container status whose name has the "debux-" prefix and
whose state is running; Go returns "" for none, modelled as none. -/
def findRunningDebuxContainer (pod : Pod) : Option String :=
  (pod.ephemeralContainerStatuses.find? (fun cs =>
      hasPrefixStr cs.name "debux-" && isRunningState cs.state)).map (fun cs => cs.name)

/-- The backend behaviour KubernetesExec interacts with: the Get result
for the target pod, the pod object the UpdateEphemeralContainers call
returns (an admission layer may have stripped containers from it), the
events the readiness watch will deliver before its timeout, the answers
to the diagnostic reads, and the namespace the kubeconfig context
resolves to. -/
structure K8sEnv where
  getPod : Except String Pod
  updateEphemeralContainers : Pod → Pod
  watchEvents : List WatchEvent
  diag : DiagSource
  resolvedNamespace : String

/-- The API calls KubernetesExec issues, in order.  The update call
records the names of the submitted ephemeral containers; the watch call
records the resourceVersion it is anchored to. -/
inductive K8sCall
  | getPod (ns pod : String)
  | updateEphemeralContainers (ns pod : String) (submitted : List String)
  | watchPod (ns pod rv : String)
  | execInPod (ns pod container : String)
deriving DecidableEq, Repr

/-- The error outcomes of KubernetesExec, one per return site. -/
inductive K8sExecError
  | getPodFailed (msg : String)
  | unknownProfile (msg : String)
  | admissionStripped (msg : String)
  | waitFailed (res : WatchResult)
deriving DecidableEq, Repr

/-- The admission-stripped error message (kubernetes.go lines 229-234),
carrying remediation guidance. -/
def admissionStrippedMessage (cn ns podName : String) : String :=
  "ephemeral container \"" ++ cn ++
  "\" was not created — the API server accepted the patch but the container is missing from the pod spec.\n" ++
  "This typically means an admission webhook or policy (e.g. Gatekeeper, Kyverno, PodSecurity) stripped it.\n" ++
  "Check cluster events and webhook configurations:\n" ++
  "  kubectl get events -n " ++ ns ++ " --field-selector involvedObject.name=" ++ podName ++ "\n" ++
  "  kubectl get validatingwebhookconfigurations,mutatingwebhookconfigurations"

/-- The namespace KubernetesExec addresses: the kubeconfig-resolved one
when the target still carries the "default" placeholder (kubernetes.go
lines 141-144). -/
def kubeResolvedNamespace (env : K8sEnv) (target : Target) : String :=
  if target.Namespace = "default" then env.resolvedNamespace else target.Namespace

/-- Embeds KubernetesExec (kubernetes.go lines 135-251).  The client
build is assumed to succeed; nowUnix stands for time.Now().Unix(), so the
created container is named "debux-<nowUnix>".  Returns the outcome and
the ordered list of API calls issued.  The flow: get the target pod;
unless the fresh override is set, reuse a running debux ephemeral
container by exec-ing directly into it; otherwise build the ephemeral
container (entrypoint command, environment, target container as the
namespace peer, shared volume mounts minus sub-path mounts, resolved
security context), update via the ephemeralcontainers subresource,
verify the returned pod still contains the submitted container (an
admission layer may strip it), then watch for readiness anchored at the
returned resourceVersion and exec into the new container. -/
def KubernetesExec (env : K8sEnv) (target : Target) (opts : DebugOpts)
    (nowUnix : Nat) : Except K8sExecError Unit × List K8sCall :=
  let ns := kubeResolvedNamespace env target
  let podName := target.Name
  match env.getPod with
  | .error e => (.error (.getPodFailed e), [.getPod ns podName])
  | .ok pod =>
    let targetContainer :=
      if target.Container = "" then
        (match pod.containers with
         | c :: _ => c.name
         | [] => "")
      else target.Container
    match (if opts.Fresh then none else findRunningDebuxContainer pod) with
    | some existing => (.ok (), [.getPod ns podName, .execInPod ns podName existing])
    | none =>
      let debugContainerName := "debux-" ++ toString nowUnix
      let sharedMounts :=
        if opts.ShareVolumes then
          match pod.containers.find? (fun c => c.name == targetContainer) with
          | some c => c.volumeMounts.filter
              (fun vm => vm.subPath == "" && vm.subPathExpr == "")
          | none => []
        else []
      match SecurityContextForProfile opts.Profile with
      | .error e => (.error (.unknownProfile e), [.getPod ns podName])
      | .ok sc =>
        let ec : EphemeralContainer :=
          { name := debugContainerName,
            image := opts.Image,
            imagePullPolicy := opts.PullPolicy,
            command := ["/entrypoint.sh"],
            stdin := true,
            tty := true,
            env := [("DEBUX_TARGET", target.Name),
                    ("DEBUX_TARGET_ROOT", "/proc/1/root"),
                    ("DEBUX_DAEMON", "1"),
                    ("HOME", "/root")],
            targetContainerName := targetContainer,
            volumeMounts := sharedMounts,
            securityContext := sc }
        let newPod := { pod with ephemeralContainers := pod.ephemeralContainers ++ [ec] }
        let patchedPod := env.updateEphemeralContainers newPod
        let submitted := newPod.ephemeralContainers.map (fun e2 => e2.name)
        if patchedPod.ephemeralContainers.any (fun e2 => e2.name == debugContainerName) then
          match (waitForEphemeralContainer debugContainerName env.diag env.watchEvents).1 with
          | .ready =>
            (.ok (), [.getPod ns podName,
                      .updateEphemeralContainers ns podName submitted,
                      .watchPod ns podName patchedPod.resourceVersion,
                      .execInPod ns podName debugContainerName])
          | res =>
            (.error (.waitFailed res),
             [.getPod ns podName,
              .updateEphemeralContainers ns podName submitted,
              .watchPod ns podName patchedPod.resourceVersion])
        else
          (.error (.admissionStripped (admissionStrippedMessage debugContainerName ns podName)),
           [.getPod ns podName, .updateEphemeralContainers ns podName submitted])

/-! ## Session lifecycle: Docker exec (src/unnamed/part_004) -/

/-- One entry of the target's Mounts from ContainerInspect
(types.MountPoint). -/
structure MountPoint where
  typ : String
  name : String
  source : String
  destination : String
  rw : Bool
  propagation : String
deriving DecidableEq, Repr

/-- One mount.Mount entry of the debug container's HostConfig. -/
structure MountEntry where
  typ : String
  source : String
  target : String
  readOnly : Bool
  propagation : String
deriving DecidableEq, Repr

/-- The target's ContainerInspect result, the fields DockerExec reads:
ID, Name (with its leading slash), State.Running, HostConfig.IpcMode
(empty when HostConfig is nil or the mode unset) and Mounts. -/
structure ContainerJSON where
  id : String
  name : String
  running : Bool
  ipcMode : String
  mounts : List MountPoint
deriving DecidableEq, Repr

/-- The Docker daemon behaviour DockerExec interacts with: inspect
results by container name/id, and the id the create call returns. -/
structure DockerEnv where
  inspect : String → Except String ContainerJSON
  createdId : String

/-- The container.Config DockerExec builds (part_004 lines 124-134),
the entrypoint script abbreviated to a marker string. -/
structure ContainerConfig where
  image : String
  entrypoint : List String
  tty : Bool
  env : List String
  user : String
deriving DecidableEq, Repr

/-- The container.HostConfig DockerExec builds (part_004 lines 142-160):
the namespace-sharing directives, added capabilities, mounts and the
privileged flag. -/
structure HostConfig where
  networkMode : String
  pidMode : String
  ipcMode : String
  capAdd : List String
  mounts : List MountEntry
  privileged : Bool
deriving DecidableEq, Repr

/-- The Docker API calls DockerExec issues, in order. -/
inductive DockerCall
  | containerInspect (name : String)
  | ensureImage (image : String)
  | ensureVolumesCall
  | containerRemove (name : String)
  | containerCreate (config : ContainerConfig) (host : HostConfig) (name : String)
  | containerStart (id : String)
  | containerLogs (id : String)
  | execSession (id : String)
deriving DecidableEq, Repr

/-- The error outcomes of DockerExec modelled here, one per early-return
site before session creation. -/
inductive DockerExecError
  | inspectFailed (msg : String)
  | targetNotRunning (name : String)
deriving DecidableEq, Repr

/-- strings.TrimPrefix(name, "/"): Docker inspect names carry a leading
slash. -/
def trimLeadingSlash (s : String) : String :=
  match s.toList with
  | '/' :: rest => String.mk rest
  | _ => s

/-- The mount destinations reserved by the debug container itself
(part_004 lines 420-423). -/
def reservedStorePaths : List String := ["/nix/store", "/nix/var"]

/-- Embeds targetMounts (part_004 lines 415-450): the target's mounts
converted to host-config entries, skipping reserved destinations and
unknown mount types. -/
def targetMounts (info : ContainerJSON) : List MountEntry :=
  (info.mounts.filter (fun mp => !(reservedStorePaths.contains mp.destination))).filterMap
    (fun mp =>
      if mp.typ == "volume" then
        some { typ := "volume", source := mp.name, target := mp.destination,
               readOnly := !mp.rw, propagation := "" }
      else if mp.typ == "bind" then
        some { typ := "bind", source := mp.source, target := mp.destination,
               readOnly := !mp.rw, propagation := mp.propagation }
      else if mp.typ == "tmpfs" then
        some { typ := "tmpfs", source := "", target := mp.destination,
               readOnly := !mp.rw, propagation := "" }
      else none)

/-- The two persistent store volume mounts every debug container gets
(part_004 lines 147-158). -/
def storeMounts : List MountEntry :=
  [{ typ := "volume", source := NixStoreVolume, target := "/nix/store",
     readOnly := false, propagation := "" },
   { typ := "volume", source := NixVarVolume, target := "/nix/var",
     readOnly := false, propagation := "" }]

/-- The reuse lookup of DockerExec (part_004 lines 106-112): inspect the
deterministic sidecar name; a running result is reused. -/
def runningSidecar (env : DockerEnv) (containerName : String) : Option String :=
  match env.inspect containerName with
  | .ok info => if info.running then some info.id else none
  | .error _ => none

/-- Embeds DockerExec (part_004 lines 85-197).  The flow: inspect the
target and require it running; unless the fresh override is set, reuse a
running sidecar named debux-<targetName> by exec-ing into it; otherwise
ensure the image and the store volumes, build the session descriptor
naming the target as namespace peer (IPC only when the target's own IPC
mode allows it), force-remove any stale container of that name, create,
start, stream the entrypoint output and exec into the new sidecar.
Returns the outcome and the ordered list of Docker calls issued. -/
def DockerExec (env : DockerEnv) (target : Target) (opts : DebugOpts) :
    Except DockerExecError Unit × List DockerCall :=
  match env.inspect target.Name with
  | .error e => (.error (.inspectFailed e), [.containerInspect target.Name])
  | .ok targetInfo =>
    if targetInfo.running = false then
      (.error (.targetNotRunning target.Name), [.containerInspect target.Name])
    else
      let targetID := targetInfo.id
      let targetName := trimLeadingSlash targetInfo.name
      let containerName := "debux-" ++ targetName
      let reuseCalls : List DockerCall :=
        if opts.Fresh then [] else [.containerInspect containerName]
      match (if opts.Fresh then none else runningSidecar env containerName) with
      | some existingId =>
        (.ok (), DockerCall.containerInspect target.Name :: reuseCalls ++
          [.execSession existingId])
      | none =>
        let baseConfig : ContainerConfig :=
          { image := opts.Image,
            entrypoint := ["/bin/sh", "-c", "entrypoint.Script"],
            tty := true,
            env := ["DEBUX_TARGET=" ++ target.Name,
                    "DEBUX_TARGET_ID=" ++ targetID,
                    "DEBUX_TARGET_ROOT=/proc/1/root",
                    "DEBUX_DAEMON=1"],
            user := "" }
        let config := if opts.User ≠ "" then { baseConfig with user := opts.User } else baseConfig
        let ipcMode :=
          if targetInfo.ipcMode ≠ "" ∧ targetInfo.ipcMode ≠ "shareable" then "private"
          else "container:" ++ targetID
        let hostConfig : HostConfig :=
          { networkMode := "container:" ++ targetID,
            pidMode := "container:" ++ targetID,
            ipcMode := ipcMode,
            capAdd := ["SYS_PTRACE"],
            mounts := storeMounts ++
              (if opts.ShareVolumes then targetMounts targetInfo else []),
            privileged := opts.Privileged }
        (.ok (), DockerCall.containerInspect target.Name :: reuseCalls ++
          [.ensureImage opts.Image, .ensureVolumesCall,
           .containerRemove containerName,
           .containerCreate config hostConfig containerName,
           .containerStart env.createdId, .containerLogs env.createdId,
           .execSession env.createdId])

/-- Whether a Kubernetes API call is a session-create call (an
ephemeralcontainers update). -/
def isK8sSessionCreate : K8sCall → Bool
  | .updateEphemeralContainers _ _ _ => true
  | _ => false

/-- Whether a Kubernetes API call starts the readiness watch. -/
def isK8sWatch : K8sCall → Bool
  | .watchPod _ _ _ => true
  | _ => false

/-- Whether a Docker API call is a session-create call (ContainerCreate). -/
def isDockerSessionCreate : DockerCall → Bool
  | .containerCreate _ _ _ => true
  | _ => false

/-- The HostConfig of the first create call of a Docker call trace. -/
def createdHostConfig (calls : List DockerCall) : Option HostConfig :=
  (calls.filterMap (fun c =>
    match c with
    | .containerCreate _ h _ => some h
    | _ => none)).head?

/-! ## Terminal cleanup (part_004, kubernetes.go, runtime.go) -/

/-- The two kinds of terminal cleanup the code performs on exit:
term.RestoreTerminal of the saved state, and the escape-sequence
emulator reset. -/
inductive TermCleanupAction
  | restoreTerminal
  | resetEmulator
deriving DecidableEq, Repr

/-- How an interactive attachment ended.  The Go cleanups are deferred,
so they run identically on each of these paths. -/
inductive ExitPath
  | normalExit
  | streamError
  | cancelledPath
deriving DecidableEq, Repr

/-- The deferred cleanup of execInContainer (part_004 lines 493-502),
run on every exit path when stdin is a terminal and raw mode was set:
restore the terminal state, then reset the emulator. -/
def execInContainerCleanup (isTerminal rawModeSet : Bool) (_path : ExitPath) :
    List TermCleanupAction :=
  if isTerminal && rawModeSet then [.restoreTerminal, .resetEmulator] else []

/-- The deferred cleanup of runInteractiveContainer (part_004 lines
219-228): restore, then reset the emulator. -/
def runInteractiveContainerCleanup (isTerminal rawModeSet : Bool) (_path : ExitPath) :
    List TermCleanupAction :=
  if isTerminal && rawModeSet then [.restoreTerminal, .resetEmulator] else []

/-- The deferred cleanup of execInPod (kubernetes.go lines 287-295):
only term.RestoreTerminal — no emulator reset. -/
def execInPodCleanup (isTerminal rawModeSet : Bool) (_path : ExitPath) :
    List TermCleanupAction :=
  if isTerminal && rawModeSet then [.restoreTerminal] else []

/-- The deferred cleanup of attachToPod (kubernetes.go lines 597-605):
only term.RestoreTerminal — no emulator reset. -/
def attachToPodCleanup (isTerminal rawModeSet : Bool) (_path : ExitPath) :
    List TermCleanupAction :=
  if isTerminal && rawModeSet then [.restoreTerminal] else []

/-- The escape sequences resetTerminalEmulator writes (runtime.go lines
16-33), in order. -/
def resetTerminalEmulatorSequence : List String :=
  ["\x1b[?1000l", "\x1b[?1002l", "\x1b[?1003l", "\x1b[?1006l", "\x1b[?1015l",
   "\x1b[?1l", "\x1b[?25h", "\x1b[?1049l", "\x1b[?7h", "\x1b[?2004l",
   "\x1b(B", "\x1b>", "\x1b[r", "\x1b[0m"]

/-! ## Concrete instances used by witnesses and counterexamples -/

/-- A target pod with a running debux ephemeral container. -/
def podWithSession : Pod :=
  { name := "web", containers := [{ name := "app", volumeMounts := [] }],
    ephemeralContainers := [],
    ephemeralContainerStatuses := [{ name := "debux-100", state := .running }],
    resourceVersion := "41" }

/-- A target pod with no debux session. -/
def podNoSession : Pod :=
  { name := "web", containers := [{ name := "app", volumeMounts := [] }],
    ephemeralContainers := [], ephemeralContainerStatuses := [],
    resourceVersion := "41" }

/-- A cluster backend with an existing session and an update call that
returns the submitted pod unchanged. -/
def k8sEnvReuse : K8sEnv :=
  { getPod := .ok podWithSession, updateEphemeralContainers := fun p => p,
    watchEvents := [], diag := diagExample, resolvedNamespace := "default" }

/-- A cluster backend with no session whose admission layer strips every
ephemeral container from the update response. -/
def k8sEnvStrip : K8sEnv :=
  { getPod := .ok podNoSession,
    updateEphemeralContainers := fun p => { p with ephemeralContainers := [] },
    watchEvents := [], diag := diagExample, resolvedNamespace := "default" }

/-- A running docker target named /web with the given IPC mode. -/
def dockerTargetInfo (ipc : String) : ContainerJSON :=
  { id := "abc123", name := "/web", running := true, ipcMode := ipc, mounts := [] }

/-- A docker daemon with the target and a running sidecar debux-web. -/
def dockerEnvWithSidecar : DockerEnv :=
  { inspect := fun n =>
      if n == "web" then .ok (dockerTargetInfo "")
      else if n == "debux-web" then
        .ok { id := "sidecar1", name := "/debux-web", running := true,
              ipcMode := "", mounts := [] }
      else .error "No such container",
    createdId := "newdbg1" }

/-- A docker daemon with the target only. -/
def dockerEnvNoSidecar : DockerEnv :=
  { inspect := fun n =>
      if n == "web" then .ok (dockerTargetInfo "") else .error "No such container",
    createdId := "newdbg1" }

/-- A docker daemon whose target runs with a private (non-shareable) IPC
mode. -/
def dockerEnvIpcPrivate : DockerEnv :=
  { inspect := fun n =>
      if n == "web" then .ok (dockerTargetInfo "private") else .error "No such container",
    createdId := "newdbg1" }

/-- The default option set of the exec command. -/
def defaultOpts : DebugOpts :=
  { Image := "ghcr.io/clement-tourriere/debux:latest", Privileged := false,
    User := "", AutoRemove := false, Kubeconfig := "", ShareVolumes := true,
    PullPolicy := "", Fresh := false, Profile := "" }

/-- The default options with the fresh override set. -/
def freshOpts : DebugOpts := { defaultOpts with Fresh := true }

/-- The docker target parsed from the address "web". -/
def targetWeb : Target :=
  { Runtime := "docker", Name := "web", Namespace := "", Container := "" }

/-- The cluster target parsed from the address "k8s://web". -/
def targetPodWeb : Target :=
  { Runtime := "kubernetes", Name := "web", Namespace := "default", Container := "" }

/-! ## Theorems for claims C2 and C10 -/

/-- splitOnCharList never returns the empty list. -/
theorem splitOnCharList_ne_nil (sep : Char) (l : List Char) :
    splitOnCharList sep l ≠ [] := by
  cases l with
  | nil => simp [splitOnCharList]
  | cons c rest =>
    simp only [splitOnCharList]
    split <;> simp

/-- splitOnChar never returns the empty list. -/
theorem splitOnChar_ne_nil (sep : Char) (s : String) :
    splitOnChar sep s ≠ [] := by
  simp only [splitOnChar, ne_eq, List.map_eq_nil_iff]
  exact splitOnCharList_ne_nil sep s.toList

/-- C2: for every address string, ParseTarget behaves exactly per the
spec's grammar: the empty address is invalid; an address without "://"
is a docker target named by the whole address; docker://, containerd://
and nerdctl:// select their runtime with the remainder as name; any other
prefix is an unknown-runtime error; and for k8s:// the remainder is split
on "/" into the wildcard, pod, namespace/pod, namespace/pod/container and
invalid cases.  Stated as: the source parser and the grammar written from
the spec's words agree on every input. -/
theorem parseTarget_matches_grammar (raw : String) :
    parseResultMatches (ParseTarget raw) (specAddressGrammar raw) := by
  unfold ParseTarget specAddressGrammar
  by_cases hraw : raw = ""
  · simp [hraw, parseResultMatches]
  · simp only [if_neg hraw]
    cases hsplit : splitSchema raw with
    | none => simp [parseResultMatches]
    | some pr =>
      obtain ⟨schema, rest⟩ := pr
      by_cases hd : schema = "docker"
      · simp [hd, parseResultMatches]
      · by_cases hc : schema = "containerd" ∨ schema = "nerdctl"
        · simp [hd, hc, parseResultMatches]
        · by_cases hk : schema = "k8s"
          · simp only [if_neg hd, if_neg hc, if_pos hk]
            unfold parseK8sTarget specClusterGrammar
            by_cases hrest : rest = ""
            · simp [hrest, parseResultMatches]
            · simp only [if_neg hrest]
              have hne := splitOnChar_ne_nil '/' rest
              cases hcase : splitOnChar '/' rest with
              | nil => exact absurd hcase hne
              | cons a t1 =>
                cases t1 with
                | nil => simp [parseResultMatches]
                | cons b t2 =>
                  cases t2 with
                  | nil => simp [parseResultMatches]
                  | cons c t3 =>
                    cases t3 with
                    | nil => simp [parseResultMatches]
                    | cons d t4 => simp [parseResultMatches]
          · simp [hd, hc, hk, parseResultMatches]

/-- C10: each supported schema with an empty remainder, and a cluster
address with a trailing slash, parse successfully to a target whose name
is the empty string (which triggers the interactive picker); the
trailing-slash form still carries its namespace segment. -/
theorem empty_name_addresses_accepted :
    ParseTarget "docker://" =
      .ok { Runtime := "docker", Name := "", Namespace := "", Container := "" } ∧
    ParseTarget "containerd://" =
      .ok { Runtime := "containerd", Name := "", Namespace := "", Container := "" } ∧
    ParseTarget "nerdctl://" =
      .ok { Runtime := "containerd", Name := "", Namespace := "", Container := "" } ∧
    ParseTarget "k8s://" =
      .ok { Runtime := "kubernetes", Name := "", Namespace := "default", Container := "" } ∧
    ParseTarget "k8s://ns/" =
      .ok { Runtime := "kubernetes", Name := "", Namespace := "ns", Container := "" } := by
  refine ⟨?_, ?_, ?_, ?_, ?_⟩ <;> rfl

/-! ## Theorems for claim C6 -/

/-- C6: the security-profile resolver maps each name to exactly the
specified policy: general (and the empty name) explicitly permits root;
baseline is the nil policy; restricted forces a non-root user, drops all
capabilities, denies privilege escalation and applies the runtime-default
seccomp profile; netadmin adds NET_ADMIN and NET_RAW; sysadmin is full
privileged mode; every other name is an unknown-profile error. -/
theorem security_profiles_match_spec :
    SecurityContextForProfile "general" = .ok (some { runAsNonRoot := some false }) ∧
    SecurityContextForProfile "" = .ok (some { runAsNonRoot := some false }) ∧
    SecurityContextForProfile "baseline" = .ok none ∧
    SecurityContextForProfile "restricted" =
      .ok (some { runAsNonRoot := some true,
                  runAsUser := some 65534,
                  allowPrivilegeEscalation := some false,
                  seccompProfile := some { type := .RuntimeDefault },
                  capabilities := some { drop := ["ALL"] } }) ∧
    SecurityContextForProfile "netadmin" =
      .ok (some { capabilities := some { add := ["NET_ADMIN", "NET_RAW"] } }) ∧
    SecurityContextForProfile "sysadmin" = .ok (some { privileged := some true }) ∧
    (∀ p : String, p ∉ "" :: ValidProfiles →
      SecurityContextForProfile p = .error ("unknown profile: " ++ p)) := by
  refine ⟨rfl, rfl, rfl, rfl, rfl, rfl, ?_⟩
  intro p hp
  simp only [ValidProfiles, ProfileGeneral, ProfileBaseline, ProfileRestricted,
    ProfileNetadmin, ProfileSysadmin, List.mem_cons, List.not_mem_nil,
    or_false] at hp
  push_neg at hp
  obtain ⟨h0, h1, h2, h3, h4, h5⟩ := hp
  simp only [SecurityContextForProfile, ProfileGeneral, ProfileBaseline,
    ProfileRestricted, ProfileNetadmin, ProfileSysadmin]
  rw [if_neg (by exact fun h => h.elim h1 h0), if_neg h2, if_neg h3, if_neg h4, if_neg h5]

/-- Witness for C6: a concrete unknown profile name is rejected. -/
theorem security_profiles_match_spec_witness :
    SecurityContextForProfile "sysadmin" = .ok (some { privileged := some true }) ∧
    SecurityContextForProfile "bogus" = .error "unknown profile: bogus" := by
  refine ⟨security_profiles_match_spec.2.2.2.2.2.1, ?_⟩
  exact security_profiles_match_spec.2.2.2.2.2.2 "bogus" (by decide)

/-! ## Theorems for claim C7 -/

/-- When a name is not found in the prefix state, inspection of the state
extended by one volume is decided by that volume alone. -/
theorem volumeInspect_append_of_none (st : VolState) (v : VolumeRec) (n : String)
    (h : volumeInspect st n = none) :
    volumeInspect (st ++ [v]) n = if v.name == n then some v else none := by
  induction st with
  | nil =>
    simp only [List.nil_append, volumeInspect, List.find?]
    cases hv : (v.name == n) <;> simp [hv]
  | cons a t ih =>
    simp only [volumeInspect, List.find?, List.cons_append] at h ⊢
    cases ha : (a.name == n) with
    | true => simp [ha] at h
    | false =>
      simp only [ha] at h ⊢
      exact ih h

/-- When a name is found, inspection still finds it after the state is
extended. -/
theorem volumeInspect_append_of_some (st : VolState) (l : VolState) (n : String)
    (v : VolumeRec) (h : volumeInspect st n = some v) :
    volumeInspect (st ++ l) n = some v := by
  induction st with
  | nil => simp [volumeInspect, List.find?] at h
  | cons a t ih =>
    simp only [volumeInspect, List.find?, List.cons_append] at h ⊢
    cases ha : (a.name == n) with
    | true => simpa [ha] using h
    | false =>
      simp only [ha] at h ⊢
      exact ih h

/-- When the volume is absent, ensureVolume creates it with the
ownership label. -/
theorem ensureVolume_absent (st : VolState) (n : String)
    (h : volumeInspect st n = none) :
    ensureVolume st n =
      (st ++ [{ name := n, labels := [("managed-by", "debux")] }],
       [{ name := n, labels := [("managed-by", "debux")] }]) := by
  simp [ensureVolume, h]

/-- When the volume exists, ensureVolume is a no-op issuing no create
call. -/
theorem ensureVolume_present (st : VolState) (n : String) (v : VolumeRec)
    (h : volumeInspect st n = some v) :
    ensureVolume st n = (st, []) := by
  simp [ensureVolume, h]

/-- C7: EnsureVolumes is idempotent.  From a state where both named
volumes are absent, the first invocation issues exactly one create call
per volume, each tagged managed-by=debux; a second invocation issues zero
create calls; and the state after two invocations equals the state after
one. -/
theorem ensure_volumes_idempotent (st : VolState)
    (h1 : volumeInspect st NixStoreVolume = none)
    (h2 : volumeInspect st NixVarVolume = none) :
    (EnsureVolumes st).2 =
      [{ name := NixStoreVolume, labels := [("managed-by", "debux")] },
       { name := NixVarVolume, labels := [("managed-by", "debux")] }] ∧
    (EnsureVolumes (EnsureVolumes st).1).2 = [] ∧
    (EnsureVolumes (EnsureVolumes st).1).1 = (EnsureVolumes st).1 := by
  set vs : VolumeRec := { name := NixStoreVolume, labels := [("managed-by", "debux")] } with hvs
  set vv : VolumeRec := { name := NixVarVolume, labels := [("managed-by", "debux")] } with hvv
  have hv2 : volumeInspect (st ++ [vs]) NixVarVolume = none := by
    rw [volumeInspect_append_of_none st vs NixVarVolume h2, hvs]
    decide
  have hfirst : EnsureVolumes st = (st ++ [vs] ++ [vv],
      [{ name := NixStoreVolume, labels := [("managed-by", "debux")] },
       { name := NixVarVolume, labels := [("managed-by", "debux")] }]) := by
    simp only [EnsureVolumes, StoreVolumes, ensureVolumesAux,
      ensureVolume_absent st NixStoreVolume h1,
      ensureVolume_absent (st ++ [vs]) NixVarVolume hv2]
    rfl
  have hs2 : volumeInspect (st ++ [vs] ++ [vv]) NixStoreVolume = some vs := by
    apply volumeInspect_append_of_some
    rw [volumeInspect_append_of_none st vs NixStoreVolume h1, hvs]
    decide
  have hvv2 : volumeInspect (st ++ [vs] ++ [vv]) NixVarVolume = some vv := by
    rw [volumeInspect_append_of_none (st ++ [vs]) vv NixVarVolume hv2, hvv]
    decide
  have hsecond : EnsureVolumes (st ++ [vs] ++ [vv]) = (st ++ [vs] ++ [vv], []) := by
    simp only [EnsureVolumes, StoreVolumes, ensureVolumesAux,
      ensureVolume_present (st ++ [vs] ++ [vv]) NixStoreVolume vs hs2,
      ensureVolume_present (st ++ [vs] ++ [vv]) NixVarVolume vv hvv2]
    rfl
  refine ⟨by rw [hfirst], ?_, ?_⟩ <;> rw [hfirst]
  · show (EnsureVolumes (st ++ [vs] ++ [vv])).2 = []
    rw [hsecond]
  · show (EnsureVolumes (st ++ [vs] ++ [vv])).1 = st ++ [vs] ++ [vv]
    rw [hsecond]

/-- Witness for C7: from the empty volume state, two calls create each
volume once then nothing. -/
theorem ensure_volumes_idempotent_witness :
    (EnsureVolumes []).2 =
      [{ name := NixStoreVolume, labels := [("managed-by", "debux")] },
       { name := NixVarVolume, labels := [("managed-by", "debux")] }] ∧
    (EnsureVolumes (EnsureVolumes []).1).2 = [] ∧
    (EnsureVolumes (EnsureVolumes []).1).1 = (EnsureVolumes []).1 :=
  ensure_volumes_idempotent [] rfl rfl


/-! ## Theorems for claims C3 and C8 -/

/-- A list of non-deciding statuses never decides processStatuses. -/
theorem processStatuses_nonDeciding (cn : String) (sts : List ContainerStatus) :
    ∀ (ls : String) (pr : List String), (∀ cs ∈ sts, NonDecidingStatus cn cs) →
    (processStatuses cn ls pr sts).1 = none := by
  induction sts with
  | nil => intro ls pr _; rfl
  | cons cs rest ih =>
    intro ls pr hall
    have hcs := hall cs (List.mem_cons_self cs rest)
    have hrest : ∀ x ∈ rest, NonDecidingStatus cn x :=
      fun x hx => hall x (List.mem_cons_of_mem cs hx)
    obtain ⟨nm, stt⟩ := cs
    by_cases hname : nm = cn
    · subst hname
      have hd := hcs rfl
      cases stt with
      | running => exact absurd hd id
      | terminated r e => exact absurd hd id
      | waiting r m =>
        have hnf : r ∉ fatalWaitingReasons := hd
        simp only [processStatuses, beq_self_eq_true, if_true]
        rw [if_neg hnf]
        by_cases hr : r ≠ "" ∧ r ≠ ls
        · rw [if_pos hr]; exact ih r (pr ++ [r]) hrest
        · rw [if_neg hr]; exact ih ls pr hrest
      | stateUnknown =>
        simp only [processStatuses, beq_self_eq_true, if_true]
        exact ih ls pr hrest
    · have hfalse : (nm == cn) = false := beq_eq_false_iff_ne.mpr hname
      simp only [processStatuses, hfalse, Bool.false_eq_true, if_false]
      exact ih ls pr hrest

/-- Scanning past non-deciding statuses, a terminated status for the
watched container decides the scan with its reason and exit code. -/
theorem processStatuses_terminated (cn : String) (pre : List ContainerStatus)
    (r : String) (e : Int) (rest : List ContainerStatus) :
    ∀ (ls : String) (pr : List String), (∀ cs ∈ pre, NonDecidingStatus cn cs) →
    (processStatuses cn ls pr
      (pre ++ { name := cn, state := .terminated r e } :: rest)).1 =
      some (.terminated r e) := by
  induction pre with
  | nil =>
    intro ls pr _
    simp [processStatuses]
  | cons cs t ih =>
    intro ls pr hall
    have hcs := hall cs (List.mem_cons_self cs t)
    have hrest : ∀ x ∈ t, NonDecidingStatus cn x :=
      fun x hx => hall x (List.mem_cons_of_mem cs hx)
    obtain ⟨nm, stt⟩ := cs
    rw [List.cons_append]
    by_cases hname : nm = cn
    · subst hname
      have hd := hcs rfl
      cases stt with
      | running => exact absurd hd id
      | terminated r2 e2 => exact absurd hd id
      | waiting r2 m2 =>
        have hnf : r2 ∉ fatalWaitingReasons := hd
        simp only [processStatuses, beq_self_eq_true, if_true]
        rw [if_neg hnf]
        by_cases hr : r2 ≠ "" ∧ r2 ≠ ls
        · rw [if_pos hr]; exact ih r2 (pr ++ [r2]) hrest
        · rw [if_neg hr]; exact ih ls pr hrest
      | stateUnknown =>
        simp only [processStatuses, beq_self_eq_true, if_true]
        exact ih ls pr hrest
    · have hfalse : (nm == cn) = false := beq_eq_false_iff_ne.mpr hname
      simp only [processStatuses, hfalse, Bool.false_eq_true, if_false]
      exact ih ls pr hrest

/-- Scanning past non-deciding statuses, a waiting status whose reason is
in the fatal set decides the scan with that reason and message. -/
theorem processStatuses_fatalWaiting (cn : String) (pre : List ContainerStatus)
    (r m : String) (rest : List ContainerStatus)
    (hfatal : r ∈ fatalWaitingReasons) :
    ∀ (ls : String) (pr : List String), (∀ cs ∈ pre, NonDecidingStatus cn cs) →
    (processStatuses cn ls pr
      (pre ++ { name := cn, state := .waiting r m } :: rest)).1 =
      some (.failedToStart r m) := by
  induction pre with
  | nil =>
    intro ls pr _
    simp only [List.nil_append, processStatuses, beq_self_eq_true, if_true]
    rw [if_pos hfatal]
  | cons cs t ih =>
    intro ls pr hall
    have hcs := hall cs (List.mem_cons_self cs t)
    have hrest : ∀ x ∈ t, NonDecidingStatus cn x :=
      fun x hx => hall x (List.mem_cons_of_mem cs hx)
    obtain ⟨nm, stt⟩ := cs
    rw [List.cons_append]
    by_cases hname : nm = cn
    · subst hname
      have hd := hcs rfl
      cases stt with
      | running => exact absurd hd id
      | terminated r2 e2 => exact absurd hd id
      | waiting r2 m2 =>
        have hnf : r2 ∉ fatalWaitingReasons := hd
        simp only [processStatuses, beq_self_eq_true, if_true]
        rw [if_neg hnf]
        by_cases hr : r2 ≠ "" ∧ r2 ≠ ls
        · rw [if_pos hr]; exact ih r2 (pr ++ [r2]) hrest
        · rw [if_neg hr]; exact ih ls pr hrest
      | stateUnknown =>
        simp only [processStatuses, beq_self_eq_true, if_true]
        exact ih ls pr hrest
    · have hfalse : (nm == cn) = false := beq_eq_false_iff_ne.mpr hname
      simp only [processStatuses, hfalse, Bool.false_eq_true, if_false]
      exact ih ls pr hrest

/-- Non-deciding events only thread the lastReason/prints state through
the watch. -/
theorem runWatch_skip_nonDeciding (cn : String) (diag : DiagSource)
    (evs1 : List WatchEvent) :
    ∀ (evs2 : List WatchEvent) (ls : String) (pr : List String),
    (∀ ev ∈ evs1, NonDecidingEvent cn ev) →
    ∃ ls2 pr2, runWatch cn diag (evs1 ++ evs2) ls pr = runWatch cn diag evs2 ls2 pr2 := by
  induction evs1 with
  | nil =>
    intro evs2 ls pr _
    exact ⟨ls, pr, rfl⟩
  | cons ev t ih =>
    intro evs2 ls pr hall
    have hev := hall ev (List.mem_cons_self ev t)
    have hrest : ∀ x ∈ t, NonDecidingEvent cn x :=
      fun x hx => hall x (List.mem_cons_of_mem ev hx)
    obtain ⟨ty, pd⟩ := ev
    rw [List.cons_append]
    by_cases htype : ty = .Modified
    · subst htype
      cases pd with
      | none =>
        simp only [runWatch, if_pos rfl]
        exact ih evs2 ls pr hrest
      | some sts =>
        have hsts : ∀ cs ∈ sts, NonDecidingStatus cn cs := hev rfl
        have hnone := processStatuses_nonDeciding cn sts ls pr hsts
        simp only [runWatch, if_pos rfl]
        rcases hps : processStatuses cn ls pr sts with ⟨res, ls2, pr2⟩
        rw [hps] at hnone
        simp only at hnone
        subst hnone
        exact ih evs2 ls2 pr2 hrest
    · simp only [runWatch, if_neg htype]
      exact ih evs2 ls pr hrest

/-- processStatuses never decides the watch with a timeout result. -/
theorem processStatuses_no_timeout (cn : String) (sts : List ContainerStatus) :
    ∀ (ls : String) (pr : List String) (d : String),
    (processStatuses cn ls pr sts).1 ≠ some (.timeoutExpired d) := by
  induction sts with
  | nil => intro ls pr d h; simp [processStatuses] at h
  | cons cs rest ih =>
    intro ls pr d
    obtain ⟨nm, stt⟩ := cs
    by_cases hname : nm = cn
    · subst hname
      cases stt with
      | running => simp [processStatuses]
      | terminated r e => simp [processStatuses]
      | waiting r m =>
        simp only [processStatuses, beq_self_eq_true, if_true]
        by_cases hf : r ∈ fatalWaitingReasons
        · rw [if_pos hf]; simp
        · rw [if_neg hf]
          by_cases hr : r ≠ "" ∧ r ≠ ls
          · rw [if_pos hr]; exact ih r (pr ++ [r]) d
          · rw [if_neg hr]; exact ih ls pr d
      | stateUnknown =>
        simp only [processStatuses, beq_self_eq_true, if_true]
        exact ih ls pr d
    · have hfalse : (nm == cn) = false := beq_eq_false_iff_ne.mpr hname
      simp only [processStatuses, hfalse, Bool.false_eq_true, if_false]
      exact ih ls pr d

/-- Every timeout the ephemeral-container watch surfaces carries the
describeContainerFailure diagnosis. -/
theorem runWatch_timeout_diagnosis (cn : String) (diag : DiagSource)
    (evs : List WatchEvent) :
    ∀ (ls : String) (pr : List String) (d : String),
    (runWatch cn diag evs ls pr).1 = .timeoutExpired d →
    d = describeContainerFailure cn diag := by
  induction evs with
  | nil =>
    intro ls pr d h
    have h2 : WatchResult.timeoutExpired (describeContainerFailure cn diag) =
        .timeoutExpired d := h
    injection h2 with h3
    exact h3.symm
  | cons ev t ih =>
    intro ls pr d
    obtain ⟨ty, pd⟩ := ev
    by_cases htype : ty = .Modified
    · subst htype
      cases pd with
      | none =>
        simp only [runWatch, if_pos rfl]
        exact ih ls pr d
      | some sts =>
        simp only [runWatch, if_pos rfl]
        rcases hps : processStatuses cn ls pr sts with ⟨res, ls2, pr2⟩
        cases res with
        | none => exact ih ls2 pr2 d
        | some w =>
          intro h
          have hw : w = .timeoutExpired d := by
            simpa using h
          exact absurd (by rw [hps]; exact congrArg some hw :
              (processStatuses cn ls pr sts).1 = some (.timeoutExpired d))
            (processStatuses_no_timeout cn sts ls pr d)
    · simp only [runWatch, if_neg htype]
      exact ih ls pr d

/-- A watch whose delivered events are all non-deciding runs to the
timeout carrying the diagnostic bundle and never fails. -/
theorem runWatch_nonDeciding_timeout (cn : String) (diag : DiagSource)
    (evs : List WatchEvent) :
    ∀ (ls : String) (pr : List String), (∀ ev ∈ evs, NonDecidingEvent cn ev) →
    (runWatch cn diag evs ls pr).1 =
      .timeoutExpired (describeContainerFailure cn diag) := by
  induction evs with
  | nil => intro ls pr _; rfl
  | cons ev t ih =>
    intro ls pr hall
    have hev := hall ev (List.mem_cons_self ev t)
    have hrest : ∀ x ∈ t, NonDecidingEvent cn x :=
      fun x hx => hall x (List.mem_cons_of_mem ev hx)
    obtain ⟨ty, pd⟩ := ev
    by_cases htype : ty = .Modified
    · subst htype
      cases pd with
      | none =>
        simp only [runWatch, if_pos rfl]
        exact ih ls pr hrest
      | some sts =>
        have hsts : ∀ cs ∈ sts, NonDecidingStatus cn cs := hev rfl
        have hnone := processStatuses_nonDeciding cn sts ls pr hsts
        simp only [runWatch, if_pos rfl]
        rcases hps : processStatuses cn ls pr sts with ⟨res, ls2, pr2⟩
        rw [hps] at hnone
        simp only at hnone
        subst hnone
        exact ih ls2 pr2 hrest
    · simp only [runWatch, if_neg htype]
      exact ih ls pr hrest

/-- Appending an element distinct from the last entry preserves the
no-adjacent-duplicates discipline. -/
theorem noAdjacentDup_snoc (l : List String) (a : String)
    (hch : noAdjacentDup l) (hlast : l = [] ∨ lastOrDefault "" l ≠ a) :
    noAdjacentDup (l ++ [a]) := by
  induction l with
  | nil => exact trivial
  | cons x t ih =>
    cases t with
    | nil =>
      rcases hlast with h | h
      · simp at h
      · exact ⟨h, trivial⟩
    | cons y t2 =>
      obtain ⟨hxy, htail⟩ := hch
      refine ⟨hxy, ?_⟩
      apply ih htail
      rcases hlast with h | h
      · simp at h
      · exact Or.inr h

/-- Appending an element makes it the last entry. -/
theorem lastOrDefault_snoc (l : List String) (a : String) :
    lastOrDefault "" (l ++ [a]) = a := by
  induction l with
  | nil => rfl
  | cons x t ih =>
    cases t with
    | nil => rfl
    | cons y t2 => exact ih

/-- processStatuses preserves the prints invariant: no adjacent
duplicates, and lastReason is the last printed line (or the initial ""
when nothing is printed yet). -/
theorem processStatuses_prints_invariant (cn : String) (sts : List ContainerStatus) :
    ∀ (ls : String) (pr : List String),
    noAdjacentDup pr → lastOrDefault "" pr = ls →
    noAdjacentDup (processStatuses cn ls pr sts).2.2 ∧
      lastOrDefault "" (processStatuses cn ls pr sts).2.2 =
        (processStatuses cn ls pr sts).2.1 := by
  induction sts with
  | nil =>
    intro ls pr h1 h2
    exact ⟨h1, h2⟩
  | cons cs rest ih =>
    intro ls pr h1 h2
    obtain ⟨nm, stt⟩ := cs
    by_cases hname : nm = cn
    · subst hname
      cases stt with
      | running =>
        simp only [processStatuses, beq_self_eq_true, if_true]
        exact ⟨h1, h2⟩
      | terminated r e =>
        simp only [processStatuses, beq_self_eq_true, if_true]
        exact ⟨h1, h2⟩
      | waiting r m =>
        simp only [processStatuses, beq_self_eq_true, if_true]
        by_cases hf : r ∈ fatalWaitingReasons
        · rw [if_pos hf]
          exact ⟨h1, h2⟩
        · rw [if_neg hf]
          by_cases hr : r ≠ "" ∧ r ≠ ls
          · rw [if_pos hr]
            apply ih r (pr ++ [r])
            · apply noAdjacentDup_snoc pr r h1
              cases pr with
              | nil => exact Or.inl rfl
              | cons p pt =>
                refine Or.inr fun hh => hr.2 (hh.symm.trans h2)
            · exact lastOrDefault_snoc pr r
          · rw [if_neg hr]
            exact ih ls pr h1 h2
      | stateUnknown =>
        simp only [processStatuses, beq_self_eq_true, if_true]
        exact ih ls pr h1 h2
    · have hfalse : (nm == cn) = false := beq_eq_false_iff_ne.mpr hname
      simp only [processStatuses, hfalse, Bool.false_eq_true, if_false]
      exact ih ls pr h1 h2

/-- The watch preserves the prints invariant to its final prints list. -/
theorem runWatch_prints_invariant (cn : String) (diag : DiagSource)
    (evs : List WatchEvent) :
    ∀ (ls : String) (pr : List String),
    noAdjacentDup pr → lastOrDefault "" pr = ls →
    noAdjacentDup (runWatch cn diag evs ls pr).2 := by
  induction evs with
  | nil =>
    intro ls pr h1 _
    exact h1
  | cons ev t ih =>
    intro ls pr h1 h2
    obtain ⟨ty, pd⟩ := ev
    by_cases htype : ty = .Modified
    · subst htype
      cases pd with
      | none =>
        simp only [runWatch, if_pos rfl]
        exact ih ls pr h1 h2
      | some sts =>
        have hinv := processStatuses_prints_invariant cn sts ls pr h1 h2
        simp only [runWatch, if_pos rfl]
        rcases hps : processStatuses cn ls pr sts with ⟨res, ls2, pr2⟩
        rw [hps] at hinv
        simp only at hinv
        cases res with
        | some w => exact hinv.1
        | none => exact ih ls2 pr2 hinv.1 hinv.2
    · simp only [runWatch, if_neg htype]
      exact ih ls pr h1 h2

/-- C3 (amended): during the readiness watch, an observed terminated
state fails the watch with its reason and exit code; an observed waiting
state with a reason in the enumerated fatal set fails it immediately, no
matter what events could still follow (so strictly before the overall
timeout); a watch that only ever observes non-deciding states (waiting
with a non-fatal reason, or no state) never fails — it runs to the
timeout; and the progress printing dedups only consecutive repeats of the
same reason: no two adjacent printed lines are equal (not at most one
line per distinct reason, which the counterexample refutes). -/
theorem watch_classification_amended :
    (∀ (cn : String) (diag : DiagSource) (evs1 evs2 : List WatchEvent)
       (pre rest : List ContainerStatus) (r : String) (e : Int)
       (ls : String) (pr : List String),
       (∀ ev ∈ evs1, NonDecidingEvent cn ev) →
       (∀ cs ∈ pre, NonDecidingStatus cn cs) →
       (runWatch cn diag
         (evs1 ++ { type := .Modified,
                    pod := some (pre ++ { name := cn, state := .terminated r e } :: rest) } :: evs2)
         ls pr).1 = .terminated r e) ∧
    (∀ (cn : String) (diag : DiagSource) (evs1 evs2 : List WatchEvent)
       (pre rest : List ContainerStatus) (r m : String)
       (ls : String) (pr : List String),
       r ∈ fatalWaitingReasons →
       (∀ ev ∈ evs1, NonDecidingEvent cn ev) →
       (∀ cs ∈ pre, NonDecidingStatus cn cs) →
       (runWatch cn diag
         (evs1 ++ { type := .Modified,
                    pod := some (pre ++ { name := cn, state := .waiting r m } :: rest) } :: evs2)
         ls pr).1 = .failedToStart r m) ∧
    (∀ (cn : String) (diag : DiagSource) (evs : List WatchEvent)
       (ls : String) (pr : List String),
       (∀ ev ∈ evs, NonDecidingEvent cn ev) →
       (runWatch cn diag evs ls pr).1 =
         .timeoutExpired (describeContainerFailure cn diag)) ∧
    (∀ (cn : String) (diag : DiagSource) (evs : List WatchEvent),
       noAdjacentDup (waitForEphemeralContainer cn diag evs).2) := by
  refine ⟨?_, ?_, ?_, ?_⟩
  · intro cn diag evs1 evs2 pre rest r e ls pr hevs hpre
    obtain ⟨ls2, pr2, heq⟩ := runWatch_skip_nonDeciding cn diag evs1 _ ls pr hevs
    rw [heq]
    have hdec := processStatuses_terminated cn pre r e rest ls2 pr2 hpre
    simp only [runWatch, if_pos rfl]
    rcases hps : processStatuses cn ls2 pr2
        (pre ++ { name := cn, state := .terminated r e } :: rest) with ⟨res, ls3, pr3⟩
    rw [hps] at hdec
    simp only at hdec
    subst hdec
    rfl
  · intro cn diag evs1 evs2 pre rest r m ls pr hfatal hevs hpre
    obtain ⟨ls2, pr2, heq⟩ := runWatch_skip_nonDeciding cn diag evs1 _ ls pr hevs
    rw [heq]
    have hdec := processStatuses_fatalWaiting cn pre r m rest hfatal ls2 pr2 hpre
    simp only [runWatch, if_pos rfl]
    rcases hps : processStatuses cn ls2 pr2
        (pre ++ { name := cn, state := .waiting r m } :: rest) with ⟨res, ls3, pr3⟩
    rw [hps] at hdec
    simp only at hdec
    subst hdec
    rfl
  · intro cn diag evs ls pr hall
    exact runWatch_nonDeciding_timeout cn diag evs ls pr hall
  · intro cn diag evs
    exact runWatch_prints_invariant cn diag evs "" [] trivial rfl

/-- Counterexample for C3 as frozen: with non-fatal waiting reasons
alternating A, B, A the watch prints three lines, printing the reason
"PodInitializing" twice — more than once for one distinct reason. -/
theorem watch_prints_per_distinct_reason_counterexample :
    (waitForEphemeralContainer "debux-1" diagExample altReasonEvents).2 =
      ["PodInitializing", "ContainerCreating", "PodInitializing"] ∧
    ((waitForEphemeralContainer "debux-1" diagExample altReasonEvents).2.count
      "PodInitializing") = 2 := by
  constructor <;> rfl

/-- Witness for C3: the amended theorem applied to concrete one-event
traces and to the alternating trace. -/
theorem watch_classification_amended_witness :
    (runWatch "debux-1" diagExample
      [{ type := .Modified,
         pod := some [{ name := "debux-1", state := .terminated "Error" 1 }] }] "" []).1 =
      .terminated "Error" 1 ∧
    (runWatch "debux-1" diagExample
      [{ type := .Modified,
         pod := some [{ name := "debux-1",
                        state := .waiting "ImagePullBackOff" "Back-off pulling image" }] }] "" []).1 =
      .failedToStart "ImagePullBackOff" "Back-off pulling image" ∧
    (runWatch "debux-1" diagExample [] "" []).1 =
      .timeoutExpired (describeContainerFailure "debux-1" diagExample) ∧
    noAdjacentDup (waitForEphemeralContainer "debux-1" diagExample altReasonEvents).2 := by
  refine ⟨?_, ?_, ?_, ?_⟩
  · exact watch_classification_amended.1 "debux-1" diagExample [] [] [] [] "Error" 1 "" []
      (fun x hx => absurd hx (List.not_mem_nil x))
      (fun x hx => absurd hx (List.not_mem_nil x))
  · exact watch_classification_amended.2.1 "debux-1" diagExample [] [] [] []
      "ImagePullBackOff" "Back-off pulling image" "" [] (by decide)
      (fun x hx => absurd hx (List.not_mem_nil x))
      (fun x hx => absurd hx (List.not_mem_nil x))
  · exact watch_classification_amended.2.2.1 "debux-1" diagExample [] "" []
      (fun x hx => absurd hx (List.not_mem_nil x))
  · exact watch_classification_amended.2.2.2 "debux-1" diagExample altReasonEvents

/-- C8 (amended): both readiness waits apply a 2-minute overall timeout;
every timeout the ephemeral-container watch surfaces carries the
describeContainerFailure diagnostic bundle (latest observed container
status plus recent related events); but the standalone-pod readiness wait
surfaces a bare timeout with no diagnosis — the claim's "every readiness
wait" fails there, as the counterexample records. -/
theorem readiness_timeout_amended :
    ephemeralContainerWaitTimeoutSeconds = 120 ∧
    podRunningWaitTimeoutSeconds = 120 ∧
    (∀ (cn : String) (diag : DiagSource) (evs : List WatchEvent)
       (ls : String) (pr : List String) (d : String),
       (runWatch cn diag evs ls pr).1 = .timeoutExpired d →
       d = describeContainerFailure cn diag) ∧
    (∀ pevs : List PodWatchEvent,
       podWaitTimeoutDiagnosis (waitForPodRunning pevs) = none) := by
  refine ⟨rfl, rfl, ?_, ?_⟩
  · intro cn diag evs ls pr d h
    exact runWatch_timeout_diagnosis cn diag evs ls pr d h
  · intro pevs
    rfl

/-- Counterexample for C8 as frozen: the pod-running readiness wait times
out with no diagnostic bundle — its surfaced message is the bare
"timeout waiting for pod %q to start". -/
theorem pod_wait_bare_timeout_counterexample :
    waitForPodRunning [{ type := .Modified, phase := some .Pending }] =
      .timeoutExpired ∧
    podWaitTimeoutDiagnosis
      (waitForPodRunning [{ type := .Modified, phase := some .Pending }]) = none ∧
    podRunningTimeoutMessage "debux-123" =
      "timeout waiting for pod \"debux-123\" to start" := by
  refine ⟨rfl, rfl, rfl⟩

/-- Witness for C8: the amended theorem applied to an empty event trace,
which times out immediately with the diagnosis. -/
theorem readiness_timeout_amended_witness :
    ephemeralContainerWaitTimeoutSeconds = 120 ∧
    describeContainerFailure "debux-1" diagExample =
      describeContainerFailure "debux-1" diagExample ∧
    podWaitTimeoutDiagnosis (waitForPodRunning []) = none := by
  refine ⟨readiness_timeout_amended.1, ?_, readiness_timeout_amended.2.2.2 []⟩
  exact (readiness_timeout_amended.2.2.1 "debux-1" diagExample [] "" []
    (describeContainerFailure "debux-1" diagExample) rfl).symm

/-! ## Theorems for claims C1, C4, C9 and C5 -/

/-- C1: reuse performs zero session-create calls, fresh-or-absent
performs exactly one, on both backends.  Cluster side: with the fresh
override unset and a running debux ephemeral container on the target pod,
KubernetesExec issues no ephemeralcontainers update and execs straight
into the existing container; with the fresh override set or no running
session (and a resolvable security profile), it issues exactly one update
call.  Local-engine side: with the fresh override unset and a running
sidecar under the deterministic name debux-<targetName>, DockerExec
issues no ContainerCreate and execs into the sidecar; with the fresh
override set or no running sidecar, it issues exactly one ContainerCreate
call. -/
theorem exec_reuse_and_fresh_create_calls :
    (∀ (env : K8sEnv) (target : Target) (opts : DebugOpts) (now : Nat)
       (pod : Pod) (existing : String),
       env.getPod = .ok pod → opts.Fresh = false →
       findRunningDebuxContainer pod = some existing →
       ((KubernetesExec env target opts now).2.countP isK8sSessionCreate = 0 ∧
        (KubernetesExec env target opts now).1 = .ok () ∧
        K8sCall.execInPod (kubeResolvedNamespace env target) target.Name existing ∈
          (KubernetesExec env target opts now).2)) ∧
    (∀ (env : K8sEnv) (target : Target) (opts : DebugOpts) (now : Nat)
       (pod : Pod) (sc : Option SecurityContextK8s),
       env.getPod = .ok pod →
       (opts.Fresh = true ∨ findRunningDebuxContainer pod = none) →
       SecurityContextForProfile opts.Profile = .ok sc →
       (KubernetesExec env target opts now).2.countP isK8sSessionCreate = 1) ∧
    (∀ (env : DockerEnv) (target : Target) (opts : DebugOpts)
       (ti : ContainerJSON) (existingId : String),
       env.inspect target.Name = .ok ti → ti.running = true → opts.Fresh = false →
       runningSidecar env ("debux-" ++ trimLeadingSlash ti.name) = some existingId →
       ((DockerExec env target opts).2.countP isDockerSessionCreate = 0 ∧
        (DockerExec env target opts).1 = .ok () ∧
        DockerCall.execSession existingId ∈ (DockerExec env target opts).2)) ∧
    (∀ (env : DockerEnv) (target : Target) (opts : DebugOpts) (ti : ContainerJSON),
       env.inspect target.Name = .ok ti → ti.running = true →
       (opts.Fresh = true ∨
         runningSidecar env ("debux-" ++ trimLeadingSlash ti.name) = none) →
       (DockerExec env target opts).2.countP isDockerSessionCreate = 1) := by
  refine ⟨?_, ?_, ?_, ?_⟩
  · intro env target opts now pod existing hgp hf hrun
    simp only [KubernetesExec, hgp, hf, Bool.false_eq_true, if_false, hrun]
    simp [List.countP_cons, List.countP_nil, isK8sSessionCreate]
  · intro env target opts now pod sc hgp hdisj hsc
    have hsel : (if opts.Fresh then none else findRunningDebuxContainer pod) = none := by
      rcases hdisj with hf | hn
      · simp [hf]
      · by_cases hf2 : opts.Fresh = true
        · simp [hf2]
        · simp [hf2, hn]
    simp only [KubernetesExec, hgp, hsel, hsc]
    repeat' split
    all_goals simp [List.countP_cons, List.countP_nil, isK8sSessionCreate]
  · intro env target opts ti existingId hins hrun hf hsid
    simp only [DockerExec, hins, hrun, Bool.true_eq_false, if_false, hf,
      Bool.false_eq_true, List.cons_append, hsid]
    simp [List.countP_cons, List.countP_nil, isDockerSessionCreate]
  · intro env target opts ti hins hrun hdisj
    have hsel : (if opts.Fresh then none
        else runningSidecar env ("debux-" ++ trimLeadingSlash ti.name)) = none := by
      rcases hdisj with hf | hn
      · simp [hf]
      · by_cases hf2 : opts.Fresh = true
        · simp [hf2]
        · simp [hf2, hn]
    simp only [DockerExec, hins, hrun, Bool.true_eq_false, if_false, hsel,
      List.cons_append]
    by_cases hf2 : opts.Fresh = true
    · simp [hf2, List.countP_cons, List.countP_nil, isDockerSessionCreate]
    · simp [hf2, List.countP_cons, List.countP_nil, isDockerSessionCreate]

/-- Witness for C1: the four parts at concrete backends — a cluster pod
with a running debux-100 session reused with zero updates, the same pod
with the fresh override creating exactly once, a docker target with a
running sidecar reused with zero creates, and the same target without a
sidecar creating exactly once. -/
theorem exec_reuse_and_fresh_create_calls_witness :
    ((KubernetesExec k8sEnvReuse targetPodWeb defaultOpts 5).2.countP
        isK8sSessionCreate = 0 ∧
      (KubernetesExec k8sEnvReuse targetPodWeb defaultOpts 5).1 = .ok () ∧
      K8sCall.execInPod (kubeResolvedNamespace k8sEnvReuse targetPodWeb)
        targetPodWeb.Name "debux-100" ∈
        (KubernetesExec k8sEnvReuse targetPodWeb defaultOpts 5).2) ∧
    (KubernetesExec k8sEnvReuse targetPodWeb freshOpts 5).2.countP
      isK8sSessionCreate = 1 ∧
    ((DockerExec dockerEnvWithSidecar targetWeb defaultOpts).2.countP
        isDockerSessionCreate = 0 ∧
      (DockerExec dockerEnvWithSidecar targetWeb defaultOpts).1 = .ok () ∧
      DockerCall.execSession "sidecar1" ∈
        (DockerExec dockerEnvWithSidecar targetWeb defaultOpts).2) ∧
    (DockerExec dockerEnvNoSidecar targetWeb defaultOpts).2.countP
      isDockerSessionCreate = 1 := by
  refine ⟨?_, ?_, ?_, ?_⟩
  · exact exec_reuse_and_fresh_create_calls.1 k8sEnvReuse targetPodWeb defaultOpts 5
      podWithSession "debux-100" rfl rfl (by decide)
  · exact exec_reuse_and_fresh_create_calls.2.1 k8sEnvReuse targetPodWeb freshOpts 5
      podWithSession (some { runAsNonRoot := some false }) rfl (Or.inl rfl) rfl
  · exact exec_reuse_and_fresh_create_calls.2.2.1 dockerEnvWithSidecar targetWeb
      defaultOpts (dockerTargetInfo "") "sidecar1" rfl rfl rfl (by decide)
  · exact exec_reuse_and_fresh_create_calls.2.2.2 dockerEnvNoSidecar targetWeb
      defaultOpts (dockerTargetInfo "") rfl rfl (Or.inr (by decide))

/-- C4: after the ephemeralcontainers update returns, the controller
checks that the returned pod still contains the submitted debug
container name before starting the readiness watch.  If the admission
layer strips it, the outcome is the distinct admission-stripped error
carrying the remediation message, the readiness watch was never started,
and no readiness failure (in particular no timeout) is reported.
Conversely, whenever the outcome is the admission-stripped error, the
trace holds no watch call. -/
theorem admission_stripped_check :
    (∀ (env : K8sEnv) (target : Target) (opts : DebugOpts) (now : Nat)
       (pod : Pod) (sc : Option SecurityContextK8s),
       env.getPod = .ok pod →
       (opts.Fresh = true ∨ findRunningDebuxContainer pod = none) →
       SecurityContextForProfile opts.Profile = .ok sc →
       (∀ p : Pod, (env.updateEphemeralContainers p).ephemeralContainers.any
          (fun e2 => e2.name == "debux-" ++ toString now) = false) →
       ((KubernetesExec env target opts now).1 =
          .error (.admissionStripped (admissionStrippedMessage
            ("debux-" ++ toString now) (kubeResolvedNamespace env target)
            target.Name)) ∧
        (KubernetesExec env target opts now).2.countP isK8sWatch = 0 ∧
        (∀ res : WatchResult,
          (KubernetesExec env target opts now).1 ≠ .error (.waitFailed res)))) ∧
    (∀ (env : K8sEnv) (target : Target) (opts : DebugOpts) (now : Nat)
       (msg : String),
       (KubernetesExec env target opts now).1 =
         .error (.admissionStripped msg) →
       (KubernetesExec env target opts now).2.countP isK8sWatch = 0) := by
  constructor
  · intro env target opts now pod sc hgp hdisj hsc hstrip
    have hsel : (if opts.Fresh then none else findRunningDebuxContainer pod) = none := by
      rcases hdisj with hf | hn
      · simp [hf]
      · by_cases hf2 : opts.Fresh = true
        · simp [hf2]
        · simp [hf2, hn]
    simp only [KubernetesExec, hgp, hsel, hsc]
    rw [hstrip]
    simp [List.countP_cons, List.countP_nil, isK8sWatch]
  · intro env target opts now msg
    simp only [KubernetesExec]
    repeat' split
    all_goals intro h
    all_goals simp_all [List.countP_cons, List.countP_nil, isK8sWatch]

/-- Witness for C4: the stripping backend k8sEnvStrip yields the
admission-stripped error with its remediation message, no watch call,
and no readiness-timeout report; and part two applied to that same run. -/
theorem admission_stripped_check_witness :
    ((KubernetesExec k8sEnvStrip targetPodWeb defaultOpts 5).1 =
      .error (.admissionStripped (admissionStrippedMessage "debux-5"
        (kubeResolvedNamespace k8sEnvStrip targetPodWeb) targetPodWeb.Name)) ∧
    (KubernetesExec k8sEnvStrip targetPodWeb defaultOpts 5).2.countP isK8sWatch = 0 ∧
    (KubernetesExec k8sEnvStrip targetPodWeb defaultOpts 5).1 ≠
      .error (.waitFailed (.timeoutExpired ""))) ∧
    (KubernetesExec k8sEnvStrip targetPodWeb defaultOpts 5).2.countP isK8sWatch = 0 := by
  have h := admission_stripped_check.1 k8sEnvStrip targetPodWeb defaultOpts 5
    podNoSession (some { runAsNonRoot := some false }) rfl (Or.inr rfl) rfl
    (fun p => rfl)
  refine ⟨⟨h.1, h.2.1, h.2.2 (.timeoutExpired "")⟩, ?_⟩
  exact admission_stripped_check.2 k8sEnvStrip targetPodWeb defaultOpts 5 _ h.1

/-- Counterexample for C9 as frozen: a target running with a private
(non-shareable) IPC mode gets a session descriptor whose process and
network peers name the target but whose IPC mode is "private" — not the
target peer. -/
theorem ipc_peer_counterexample :
    (createdHostConfig (DockerExec dockerEnvIpcPrivate targetWeb freshOpts).2).map
      (fun h => h.networkMode) = some "container:abc123" ∧
    (createdHostConfig (DockerExec dockerEnvIpcPrivate targetWeb freshOpts).2).map
      (fun h => h.pidMode) = some "container:abc123" ∧
    (createdHostConfig (DockerExec dockerEnvIpcPrivate targetWeb freshOpts).2).map
      (fun h => h.ipcMode) = some "private" ∧
    some "private" ≠ some ("container:" ++ "abc123") := by
  refine ⟨rfl, rfl, rfl, by decide⟩

/-- C9 (amended): every session the local-engine backend creates names
the target container as the peer for process and network namespace
sharing; the IPC peer is also the target, but only when the target's own
IPC mode is unset or "shareable" — otherwise the session gets a private
IPC namespace. -/
theorem namespace_sharing_amended :
    ∀ (env : DockerEnv) (target : Target) (opts : DebugOpts) (ti : ContainerJSON),
      env.inspect target.Name = .ok ti →
      ti.running = true →
      (opts.Fresh = true ∨
        runningSidecar env ("debux-" ++ trimLeadingSlash ti.name) = none) →
      (createdHostConfig (DockerExec env target opts).2).map (fun h => h.networkMode) =
        some ("container:" ++ ti.id) ∧
      (createdHostConfig (DockerExec env target opts).2).map (fun h => h.pidMode) =
        some ("container:" ++ ti.id) ∧
      (createdHostConfig (DockerExec env target opts).2).map (fun h => h.ipcMode) =
        some (if ti.ipcMode ≠ "" ∧ ti.ipcMode ≠ "shareable" then "private"
              else "container:" ++ ti.id) := by
  intro env target opts ti hins hrun hdisj
  have hsel : (if opts.Fresh then none
      else runningSidecar env ("debux-" ++ trimLeadingSlash ti.name)) = none := by
    rcases hdisj with hf | hn
    · simp [hf]
    · by_cases hf2 : opts.Fresh = true
      · simp [hf2]
      · simp [hf2, hn]
  simp only [DockerExec, hins, hrun, Bool.true_eq_false, if_false, hsel,
    List.cons_append]
  by_cases hf2 : opts.Fresh = true
  · simp [hf2, createdHostConfig]
  · simp [hf2, createdHostConfig]

/-- Witness for C9: the amended theorem at a target with empty IPC mode
(peered) alongside the private case. -/
theorem namespace_sharing_amended_witness :
    (createdHostConfig (DockerExec dockerEnvNoSidecar targetWeb defaultOpts).2).map
      (fun h => h.networkMode) = some ("container:" ++ "abc123") ∧
    (createdHostConfig (DockerExec dockerEnvNoSidecar targetWeb defaultOpts).2).map
      (fun h => h.pidMode) = some ("container:" ++ "abc123") ∧
    (createdHostConfig (DockerExec dockerEnvNoSidecar targetWeb defaultOpts).2).map
      (fun h => h.ipcMode) =
      some (if ("" : String) ≠ "" ∧ ("" : String) ≠ "shareable" then "private"
            else "container:" ++ "abc123") := by
  exact namespace_sharing_amended dockerEnvNoSidecar targetWeb defaultOpts
    (dockerTargetInfo "") rfl rfl (Or.inr rfl)

/-- Counterexample for C5 as frozen: the cluster transport's deferred
cleanup (execInPod and attachToPod) restores the terminal's prior mode
but never performs the emulator reset, on any exit path. -/
theorem cluster_cleanup_missing_emulator_reset :
    TermCleanupAction.resetEmulator ∉ execInPodCleanup true true ExitPath.normalExit ∧
    TermCleanupAction.resetEmulator ∉ attachToPodCleanup true true ExitPath.cancelledPath ∧
    execInPodCleanup true true ExitPath.streamError =
      [TermCleanupAction.restoreTerminal] := by
  refine ⟨by decide, by decide, rfl⟩

/-- C5 (amended): on every exit path of an interactive attachment that
switched a real terminal into raw mode, the local-engine transport
(execInContainer and runInteractiveContainer) restores the terminal's
prior mode and then separately resets the terminal emulator — and the
reset sequence covers exiting the alternate screen, showing the cursor,
disabling mouse tracking and bracketed paste, resetting the character
set, the scroll region and text attributes; the cluster transport
(execInPod and attachToPod) only restores the prior mode, with no
emulator reset. -/
theorem terminal_cleanup_amended :
    (∀ p : ExitPath,
      execInContainerCleanup true true p =
        [TermCleanupAction.restoreTerminal, TermCleanupAction.resetEmulator] ∧
      runInteractiveContainerCleanup true true p =
        [TermCleanupAction.restoreTerminal, TermCleanupAction.resetEmulator] ∧
      execInPodCleanup true true p = [TermCleanupAction.restoreTerminal] ∧
      attachToPodCleanup true true p = [TermCleanupAction.restoreTerminal]) ∧
    "\x1b[?1049l" ∈ resetTerminalEmulatorSequence ∧
    "\x1b[?25h" ∈ resetTerminalEmulatorSequence ∧
    "\x1b[?1000l" ∈ resetTerminalEmulatorSequence ∧
    "\x1b[?2004l" ∈ resetTerminalEmulatorSequence ∧
    "\x1b(B" ∈ resetTerminalEmulatorSequence ∧
    "\x1b[r" ∈ resetTerminalEmulatorSequence ∧
    "\x1b[0m" ∈ resetTerminalEmulatorSequence := by
  refine ⟨fun p => ⟨rfl, rfl, rfl, rfl⟩, ?_, ?_, ?_, ?_, ?_, ?_, ?_⟩ <;> decide

end Debux
